import Mathlib

/-!
Verification development for the redirect-blocker content script
(`src/content/blocker.js`, injected in the MAIN world).

The script is shallowly embedded: source texts are lists of characters,
each regular-expression rewrite of `sanitizeCode` is an executable
scanner over the text, navigation arbitration (`shouldBlockNavigation`),
storage-key filtering (`isSuspiciousKey`), the `storage`-listener drop,
and the nested-context instrumentation (`protectWindow`) are executable
functions mirrored line by line from the source.  The WHATWG `URL`
platform constructor, which the source calls but does not define, is
modelled by `parseAbsURL` / `resolveURL` restricted to the URL shapes
the arbiter distinguishes (scheme, host, pathname; query and fragment
are stripped, dot-segments and ports are not normalised).
-/

/-! ## Character and string primitives -/

/-- Source texts are lists of characters. -/
abbrev Str := List Char

/-- The characters of a Lean string literal. -/
def litOf (s : String) : Str := s.data

/-- Rebuild a Lean string from characters. -/
def strOf (l : Str) : String := ⟨l⟩

/-- A JavaScript word character, as used by the `\b` regex assertion:
`[A-Za-z0-9_]`. -/
def isWordChar (c : Char) : Bool := c.isAlpha || c.isDigit || c == '_'

/-- A `\b` word boundary holds before a word character exactly when the
preceding character is absent or is not a word character. -/
def atBoundary : Option Char → Bool
  | none => true
  | some c => !isWordChar c

/-- The JavaScript `\s` class, restricted to the ASCII whitespace
characters (space, tab, line feed, carriage return, vertical tab, form
feed); the Unicode space characters are not modelled. -/
def isSpaceJs (c : Char) : Bool :=
  c == ' ' || c == '\t' || c == '\n' || c == '\r' || c == Char.ofNat 11 || c == Char.ofNat 12

/-- Greedily drop `\s*`. -/
def dropSpaces : Str → Str
  | [] => []
  | c :: rest => if isSpaceJs c then dropSpaces rest else c :: rest

/-- Drop `\s+`: at least one whitespace character, then greedily the rest. -/
def dropSpaces1 : Str → Option Str
  | [] => none
  | c :: rest => if isSpaceJs c then some (dropSpaces rest) else none

/-- Match a literal character sequence, returning the remainder. -/
def dropLit : Str → Str → Option Str
  | [], s => some s
  | _ :: _, [] => none
  | p :: ps, c :: cs => if c == p then dropLit ps cs else none

/-- Match a literal character sequence case-insensitively (the pattern
is given in lower case), returning the remainder. -/
def dropLitCI : Str → Str → Option Str
  | [], s => some s
  | _ :: _, [] => none
  | p :: ps, c :: cs => if c.toLower == p then dropLitCI ps cs else none

/-- Match one specific character. -/
def dropOne (q : Char) : Str → Option Str
  | [] => none
  | c :: rest => if c == q then some rest else none

/-- Does `s` start with `p`? -/
def startsWithL : Str → Str → Bool
  | [], _ => true
  | _ :: _, [] => false
  | p :: ps, c :: cs => p == c && startsWithL ps cs

/-- Does `s` contain `pat` as a contiguous substring (JavaScript
`String.prototype.includes`)? -/
def containsL (pat : Str) : Str → Bool
  | [] => pat.isEmpty
  | c :: rest => startsWithL pat (c :: rest) || containsL pat rest

/-- Lower-case every character (models `String.prototype.toLowerCase`
on the ASCII keys the script compares). -/
def toLowerL (s : Str) : Str := s.map Char.toLower

/-! ## Script sanitizer (`sanitizeCode`, blocker.js lines 75-108)

Each regex rewrite `code.replace(/pat/g, repl)` is embedded as a
left-to-right scanner: at every position the matcher receives the
previous (original) character, for `\b` assertions, and the current
suffix; on success it yields the suffix after the match together with
the literal replacement text, and scanning resumes after the matched
text, exactly as a JavaScript global replace does. -/

/-- The single-quote character. -/
def qSingle : Char := Char.ofNat 39

/-- The backtick character. -/
def qBack : Char := Char.ofNat 96

/-- A quote accepted by the `(["'])` regex classes of rule 6. -/
def isQuote2 (c : Char) : Bool := c == '"' || c == qSingle

/-- A quote accepted by the ``(["'`])`` regex classes of rules 2-5. -/
def isQuote3 (c : Char) : Bool := isQuote2 c || c == qBack

/-- The trigger token. -/
def debuggerChars : Str := litOf "debugger"

/-- One replacement step: a matcher takes the previous original
character and the current suffix and, on a match, returns the suffix
after the match and the replacement text. -/
abbrev RuleMatch := Option Char → Str → Option (Str × Str)

/-- Rule 1, `\bdebugger\s*;?` replaced by a block comment
(blocker.js line 79).  Note the replacement text itself contains the
token `debugger` preceded by a space. -/
def mDebugger : RuleMatch := fun prev s =>
  if atBoundary prev then
    match dropLit debuggerChars s with
    | some r =>
      match dropSpaces r with
      | c :: t =>
        if c == ';' then some (t, litOf "/* debugger removed */")
        else some (c :: t, litOf "/* debugger removed */")
      | [] => some ([], litOf "/* debugger removed */")
    | none => none
  else none

/-- Rule 2, ``\.constructor\s*\(\s*(["'`])debugger\1\s*\)`` replaced by
`.constructor("/* noop */")` (blocker.js line 83). -/
def mCtor : RuleMatch := fun _ s => do
  let r1 ← dropLit (litOf ".constructor") s
  let r2 := dropSpaces r1
  let r3 ← dropOne '(' r2
  match dropSpaces r3 with
  | q :: r4 =>
    if isQuote3 q then do
      let r5 ← dropLit debuggerChars r4
      let r6 ← dropOne q r5
      let r7 := dropSpaces r6
      let r8 ← dropOne ')' r7
      pure (r8, litOf ".constructor(\"/* noop */\")")
    else none
  | [] => none

/-- The common body of rule 3 for one alternative of
`(eval|setTimeout|setInterval)`: match
``name\s*\(\s*(["'`])debugger`` and produce the replacement
`$1($2/* noop */` (blocker.js line 86). -/
def mEvalName (name : String) : Str → Option (Str × Str) := fun s => do
  let r1 ← dropLit (litOf name) s
  let r2 := dropSpaces r1
  let r3 ← dropOne '(' r2
  match dropSpaces r3 with
  | q :: r4 =>
    if isQuote3 q then do
      let r5 ← dropLit debuggerChars r4
      pure (r5, litOf name ++ ['('] ++ [q] ++ litOf "/* noop */")
    else none
  | [] => none

/-- Rule 3, ``\b(eval|setTimeout|setInterval)\s*\(\s*(["'`])debugger\2``;
the alternatives are tried left to right behind one word boundary. -/
def mEvalTimer : RuleMatch := fun prev s =>
  if atBoundary prev then
    match mEvalName "eval" s with
    | some v => some v
    | none =>
      match mEvalName "setTimeout" s with
      | some v => some v
      | none => mEvalName "setInterval" s
  else none

/-- The shared tail of rules 4 and 5:
``\s*\(\s*(["'`])debugger\1\s*\)`` after the word `Function`, returning
the remainder and the quote character. -/
def mFuncTail (s : Str) : Option (Str × Char) := do
  let r2 := dropSpaces s
  let r3 ← dropOne '(' r2
  match dropSpaces r3 with
  | q :: r4 =>
    if isQuote3 q then do
      let r5 ← dropLit debuggerChars r4
      let r6 ← dropOne q r5
      let r7 := dropSpaces r6
      let r8 ← dropOne ')' r7
      pure (r8, q)
    else none
  | [] => none

/-- Rule 4, ``\bFunction\s*\(\s*(["'`])debugger\1\s*\)`` replaced by
`Function($1/* noop */$1)` (blocker.js line 89). -/
def mFuncCall : RuleMatch := fun prev s =>
  if atBoundary prev then
    match dropLit (litOf "Function") s with
    | some r1 =>
      match mFuncTail r1 with
      | some (r8, q) => some (r8, litOf "Function(" ++ [q] ++ litOf "/* noop */" ++ [q] ++ [')'])
      | none => none
    | none => none
  else none

/-- Rule 5, ``new\s+Function\s*\(\s*(["'`])debugger\1\s*\)`` replaced by
`new Function($1/* noop */$1)` (blocker.js line 92); note the pattern
has no word boundary before `new`. -/
def mNewFunc : RuleMatch := fun _ s => do
  let r1 ← dropLit (litOf "new") s
  let r2 ← dropSpaces1 r1
  let r3 ← dropLit (litOf "Function") r2
  let (r8, q) ← mFuncTail r3
  pure (r8, litOf "new Function(" ++ [q] ++ litOf "/* noop */" ++ [q] ++ [')'])

/-- The alternatives of the optional group
`(?:b(?:ug(?:g(?:er?)?)?)?)?` of rule 6, in the order a backtracking
regex engine tries them (longest first, then the empty string). -/
def concatTails : List Str :=
  [litOf "bugger", litOf "bugge", litOf "bugg", litOf "bug", litOf "b", []]

/-- Try the rule-6 tail alternatives in order; an alternative is kept
only when it is immediately followed by the closing quote `q` (the
backreference `\1`), which is consumed.  The alternatives are pairwise
prefix-comparable and end in letters, so at most one of them can be
followed by a quote, exactly as in the backtracking search. -/
def firstTailClose (q : Char) : List Str → Str → Option Str
  | [], _ => none
  | t :: ts, r =>
    match dropLitCI t r with
    | some r2 =>
      match r2 with
      | c :: r3 => if c == q then some r3 else firstTailClose q ts r
      | [] => firstTailClose q ts r
    | none => firstTailClose q ts r

/-- Greedily consume one optional character (case-insensitively), as in
`b?`, `u?`, ... of rule 6. -/
def dropOptCI (c : Char) (s : Str) : Str :=
  match s with
  | x :: t => if x.toLower == c then t else s
  | [] => s

/-- Rule 6, the split-string pattern
`(["'])de(?:b(?:ug(?:g(?:er?)?)?)?)?(\1)\s*\+\s*(["'])(?:b?u?g?g?e?r?)\3`
with the `i` flag, replaced by `$1noop$2` (blocker.js line 96). -/
def mConcat : RuleMatch := fun _ s =>
  match s with
  | q1 :: r0 =>
    if isQuote2 q1 then
      match dropLitCI (litOf "de") r0 with
      | some r1 =>
        match firstTailClose q1 concatTails r1 with
        | some r2 =>
          match dropSpaces r2 with
          | plus :: r4 =>
            if plus == '+' then
              match dropSpaces r4 with
              | q2 :: r6 =>
                if isQuote2 q2 then
                  match dropOptCI 'r' (dropOptCI 'e' (dropOptCI 'g' (dropOptCI 'g'
                      (dropOptCI 'u' (dropOptCI 'b' r6))))) with
                  | c :: r8 => if c == q2 then some (r8, q1 :: litOf "noop" ++ [q1]) else none
                  | [] => none
                else none
              | [] => none
            else none
          | [] => none
        | none => none
      | none => none
    else none
  | [] => none

/-- Rule 7, the literal Unicode escape spelling of the token,
case-insensitively, replaced by `noop` (blocker.js line 99). -/
def mUniEsc : RuleMatch := fun _ s => do
  let r ← dropLitCI (litOf "\\u0064\\u0065\\u0062\\u0075\\u0067\\u0067\\u0065\\u0072") s
  pure (r, litOf "noop")

/-- Rule 8, the literal hex escape spelling of the token,
case-insensitively, replaced by `noop` (blocker.js line 102). -/
def mHexEsc : RuleMatch := fun _ s => do
  let r ← dropLitCI (litOf "\\x64\\x65\\x62\\x75\\x67\\x67\\x65\\x72") s
  pure (r, litOf "noop")

/-- One global replace pass: scan left to right; where the matcher
fails, copy the character; where it succeeds, emit the replacement and
resume after the matched original text.  The previous-character context
used for word boundaries is always taken from the original text.  The
fuel argument only serves termination; one unit per position suffices
since every match consumes at least one character. -/
def scanRep (m : RuleMatch) : Nat → Option Char → Str → Str
  | 0, _, s => s
  | _ + 1, _, [] => []
  | fuel + 1, prev, c :: rest =>
    match m prev (c :: rest) with
    | some (after, repl) =>
      repl ++ scanRep m fuel
        (((c :: rest).take ((c :: rest).length - after.length)).getLast?) after
    | none => c :: scanRep m fuel (some c) rest

/-- Run one rewrite rule over a whole text. -/
def runRule (m : RuleMatch) (s : Str) : Str := scanRep m s.length none s

/-- `sanitizeCode` (blocker.js lines 75-108): the eight rewrite rules
applied in source order. -/
def sanitizeCode (s : Str) : Str :=
  runRule mHexEsc (runRule mUniEsc (runRule mConcat (runRule mNewFunc
    (runRule mFuncCall (runRule mEvalTimer (runRule mCtor (runRule mDebugger s)))))))

/-- Does the matcher succeed at some position of the text (with the
same previous-character contexts the scanner would use)? -/
def matchesSomewhere (m : RuleMatch) : Option Char → Str → Bool
  | _, [] => false
  | prev, c :: rest => (m prev (c :: rest)).isSome || matchesSomewhere m (some c) rest

/-- A text contains a forbidden trigger pattern when any of the eight
rewrite rules matches somewhere in it. -/
def hasForbidden (s : Str) : Bool :=
  matchesSomewhere mDebugger none s || matchesSomewhere mCtor none s ||
  matchesSomewhere mEvalTimer none s || matchesSomewhere mFuncCall none s ||
  matchesSomewhere mNewFunc none s || matchesSomewhere mConcat none s ||
  matchesSomewhere mUniEsc none s || matchesSomewhere mHexEsc none s

/-! ## URL model (platform `new URL(...)`)

The arbiter calls the WHATWG `URL` constructor; the platform parser is
modelled here for the shapes the arbiter distinguishes: scheme, host
and pathname (lower-cased scheme and host, query and fragment
stripped); userinfo, ports and dot-segment normalisation are not
modelled.  A `none` result models the constructor throwing. -/

/-- A parsed URL, with the fields the arbiter reads. -/
structure URLRec where
  scheme : String
  host : String
  pathname : String
deriving DecidableEq, Repr

/-- The `origin` property: `scheme://host`. -/
def URLRec.origin (u : URLRec) : String := u.scheme ++ "://" ++ u.host

/-- Split `scheme://rest` at the first colon, requiring the colon to be
followed by two slashes. -/
def splitScheme : Str → Option (Str × Str)
  | [] => none
  | c :: rest =>
    if c == ':' then
      match rest with
      | '/' :: '/' :: r => some ([], r)
      | _ => none
    else
      match splitScheme rest with
      | some (sch, r) => some (c :: sch, r)
      | none => none

/-- A valid URL scheme: a letter followed by letters, digits, `+`, `-`
or `.`. -/
def validScheme : Str → Bool
  | [] => false
  | c :: cs => c.isAlpha && cs.all fun d => d.isAlpha || d.isDigit || d == '+' || d == '-' || d == '.'

/-- The pathname part of what follows the host: a leading slash keeps
everything up to the query or fragment, anything else is the root. -/
def pathOf : Str → Str
  | '/' :: t => '/' :: t.takeWhile (fun c => !(c == '?' || c == '#'))
  | _ => ['/']

/-- Split the part after `scheme://` into host and pathname; an empty
host is a parse failure (`new URL("https://")` throws). -/
def hostPath (r : Str) : Option (Str × Str) :=
  let h := r.takeWhile (fun c => !(c == '/' || c == '?' || c == '#'))
  if h.isEmpty then none else some (h, pathOf (r.drop h.length))

/-- Parse an absolute URL. -/
def parseAbsURLL (s : Str) : Option URLRec :=
  match splitScheme s with
  | none => none
  | some (sch, rest) =>
    if validScheme sch then
      match hostPath rest with
      | some (h, p) => some ⟨strOf (toLowerL sch), strOf (toLowerL h), strOf p⟩
      | none => none
    else none

/-- Parse an absolute URL given as a string (`new URL(s)`). -/
def parseAbsURL (s : String) : Option URLRec := parseAbsURLL s.data

/-- Resolve a relative reference against a base origin (the arbiter
passes `currentUrl.origin` as the base, so relative paths resolve
against the origin root). -/
def relResolve (base : URLRec) : Str → Option URLRec
  | '/' :: '/' :: rest =>
    (match hostPath rest with
     | some (h, p) => some ⟨base.scheme, strOf (toLowerL h), strOf p⟩
     | none => none)
  | '/' :: rest => some ⟨base.scheme, base.host, strOf (pathOf ('/' :: rest))⟩
  | [] => some ⟨base.scheme, base.host, "/"⟩
  | s => some ⟨base.scheme, base.host, strOf (pathOf ('/' :: s))⟩

/-- `new URL(url, base.origin)`: an absolute URL stands alone (and must
parse), anything else resolves against the base origin. -/
def resolveURL (base : URLRec) (url : String) : Option URLRec :=
  match splitScheme url.data with
  | some (sch, _) => if validScheme sch then parseAbsURLL url.data else relResolve base url.data
  | none => relResolve base url.data

/-! ## Navigation arbiter (`shouldBlockNavigation`, blocker.js lines 528-592) -/

/-- The suspicious redirect targets (blocker.js line 528). -/
def SUSPICIOUS_PATHS : List String :=
  ["/", "/login", "/signin", "/auth", "/home", "/index", "/logout", "/signout"]

/-- JavaScript `String.prototype.split` on `/`. -/
def splitSlash : Str → List Str
  | [] => [[]]
  | c :: rest =>
    if c = '/' then [] :: splitSlash rest
    else
      match splitSlash rest with
      | g :: gs => (c :: g) :: gs
      | [] => [[c]]

/-- `currentUrl.pathname !== "/" && currentUrl.pathname.split("/").filter(Boolean).length > 0`
(blocker.js line 551). -/
def isFromDeepPage (u : URLRec) : Bool :=
  !decide (u.pathname = "/") &&
    decide (0 < ((splitSlash u.pathname.data).filter (fun seg => !seg.isEmpty)).length)

/-- `SUSPICIOUS_PATHS.some(p => path === p || path === p + "/" || path.startsWith(p + "/"))`
(blocker.js lines 552-554). -/
def isToSuspiciousPath (u : URLRec) : Bool :=
  SUSPICIOUS_PATHS.any fun p =>
    decide (u.pathname = p) || decide (u.pathname = p ++ "/") ||
      startsWithL (p ++ "/").data u.pathname.data

/-- The observable outcome of one arbiter call: whether the navigation
is blocked, by how much `blockedCount` grows, and whether the
URL-parsing failure path logged its anomaly. -/
structure NavOutcome where
  blocked : Bool
  delta : Nat
  parseFailLogged : Bool
deriving DecidableEq, Repr

/-- The decision body of `shouldBlockNavigation` once both URLs parsed
(blocker.js lines 550-585): the armed interaction window allows
everything, then a same-origin deep-to-suspicious redirect blocks and
counts, then a cross-origin redirect blocks and counts, and everything
else falls through to allow. -/
def navDecide (armed : Bool) (cur tgt : URLRec) : NavOutcome :=
  if armed then ⟨false, 0, false⟩
  else if decide (tgt.origin = cur.origin) && isFromDeepPage cur && isToSuspiciousPath tgt then
    ⟨true, 1, false⟩
  else if !decide (tgt.origin = cur.origin) then ⟨true, 1, false⟩
  else ⟨false, 0, false⟩

/-- `shouldBlockNavigation(newUrl)` with the context state
(`userInteracted`, `originalLocation`) passed explicitly; a URL parsing
failure is caught, logged, and falls through to `return false`
(blocker.js lines 546-592). -/
def shouldBlockNavigation (armed : Bool) (loc url : String) : NavOutcome :=
  match parseAbsURL loc with
  | none => ⟨false, 0, true⟩
  | some cur =>
    match resolveURL cur url with
    | none => ⟨false, 0, true⟩
    | some tgt => navDecide armed cur tgt

/-- The `location.reload` override (blocker.js lines 625-639): armed
reloads delegate, idle reloads are absorbed and counted. -/
def reloadOutcome (armed : Bool) : NavOutcome :=
  if armed then ⟨false, 0, false⟩ else ⟨true, 1, false⟩

/-! ## Storage write interception (blocker.js lines 692-719) -/

/-- The suspicious localStorage keys (blocker.js lines 692-699). -/
def SUSPICIOUS_KEYS : List String :=
  ["tabactive", "tab_active", "activetab", "active_tab",
   "tabcount", "tab_count", "opentabs", "open_tabs",
   "tabid", "tab_id", "tabsession", "tab_session",
   "multipleinstances", "multiple_instances",
   "singleinstance", "single_instance",
   "tabcheck", "tab_check", "tabheartbeat", "tab_heartbeat"]

/-- Remove the separators `-` and `_` (the `replace(/[-_]/g, "")` calls). -/
def stripSep (s : Str) : Str := s.filter fun c => !(c == '-' || c == '_')

/-- `isSuspiciousKey` (blocker.js lines 701-707): an empty key is never
suspicious; otherwise the key is lower-cased, separators are removed,
and each suspicious key (also stripped of separators) is looked up as a
substring. -/
def isSuspiciousKey (key : String) : Bool :=
  if key.isEmpty then false
  else SUSPICIOUS_KEYS.any fun sk => containsL (stripSep sk.data) (stripSep (toLowerL key.data))

/-- One localStorage cell update: replace the value under an existing
key or append the pair. -/
def storeWrite : List (String × String) → String → String → List (String × String)
  | [], k, v => [(k, v)]
  | (k0, v0) :: rest, k, v =>
    if k0 = k then (k0, v) :: rest else (k0, v0) :: storeWrite rest k v

/-- The `Storage.prototype.setItem` override (blocker.js lines 711-719):
a suspicious key discards the write and counts one blocked event, any
other key is delegated to the original `setItem` unchanged. -/
def setItemStep (store : List (String × String)) (key value : String) :
    List (String × String) × Nat :=
  if isSuspiciousKey key then (store, 1) else (storeWrite store key value, 0)

/-! ## Storage event listener blocking (blocker.js lines 508-521) -/

/-- The `window.addEventListener` override: registrations are a list of
(type, listener, options) triples, with listener and options opaque; a
`storage` registration is dropped and counted, anything else is
delegated with the arguments unchanged. -/
def addListenerStep (regs : List (String × Nat × Nat)) (etype : String) (listener opts : Nat) :
    List (String × Nat × Nat) × Nat :=
  if etype = "storage" then (regs, 1) else (regs ++ [(etype, listener, opts)], 0)

/-! ## Wrapper identity metadata (claim C3)

A minimal model of the JavaScript function-object metadata that
capability-detection code can observe: reference identity (`objId`,
distinct per allocation), the `prototype` property (`protoId`), the
`name` property, and what `toString()` returns.  `toString()` returns
the override when one was assigned (as the constructor-getter wrapper
does at blocker.js line 437) and the object's own source rendering
otherwise. -/

/-- What a function object's `toString()` renders: a native function of
a given name, a user class declaration of a given name, or an anonymous
user function expression. -/
inductive SrcRepr where
  | nativeSrc (name : String)
  | classDecl (name : String)
  | anonFun
deriving DecidableEq, Repr

/-- A JavaScript function object, by its detection-relevant metadata. -/
structure JsFun where
  objId : Nat
  protoId : Nat
  name : String
  src : SrcRepr
  tsOverride : Option SrcRepr
deriving DecidableEq, Repr

/-- What `toString()` returns. -/
def JsFun.toStringVal (f : JsFun) : SrcRepr := f.tsOverride.getD f.src

/-- The native `BroadcastChannel` constructor saved at blocker.js
line 266. -/
def OriginalBroadcastChannel : JsFun :=
  ⟨0, 100, "BroadcastChannel", .nativeSrc "BroadcastChannel", none⟩

/-- The native `Function` constructor saved at blocker.js line 340. -/
def nativeFunction : JsFun := ⟨1, 101, "Function", .nativeSrc "Function", none⟩

/-- The `BlockedBroadcastChannel` class (blocker.js lines 268-324)
installed as `window.BroadcastChannel` at line 328: a fresh class with
its own prototype object; no prototype assignment, name patch or
`toString` patch is applied to it anywhere in the source. -/
def BlockedBroadcastChannel : JsFun :=
  ⟨2, 102, "BlockedBroadcastChannel", .classDecl "BlockedBroadcastChannel", none⟩

/-- The `window.Function` wrapper (blocker.js lines 344-355): an
anonymous function expression assigned to a property (so its `name`
stays empty); line 358 assigns its `prototype` to the native prototype,
but its `toString` is never patched. -/
def windowFunctionWrapper : JsFun := ⟨3, nativeFunction.protoId, "", .anonFun, none⟩

/-- One read of the patched `Function.prototype.constructor` getter
(blocker.js lines 420-439).  By line 417,
`originalFunctionConstructor = Function.prototype.constructor` captures
the anonymous `window.Function` wrapper, because line 359 had already
set `Function.prototype.constructor` to it.  Every getter access then
allocates a fresh `wrapper` function (modelled by the fresh allocation
index), assigns its `prototype` to the captured wrapper's prototype —
the native prototype, from line 358 — (line 436), and overrides its
`toString` to render the captured wrapper's source, an anonymous
function expression, not the native source (line 437). -/
def constructorGetterRead (fresh : Nat) : JsFun :=
  ⟨1000 + fresh, windowFunctionWrapper.protoId, "wrapper", .anonFun,
    some windowFunctionWrapper.toStringVal⟩

/-- The masquerade contract of the specification: a wrapper is
indistinguishable from the original when it keeps the prototype link
and renders the same `toString`. -/
def masquerades (w orig : JsFun) : Prop :=
  w.protoId = orig.protoId ∧ w.toStringVal = orig.toStringVal

/-! ## Nested-context instrumentation (`protectWindow`, blocker.js lines 746-806) -/

/-- A nested window, by the state `protectWindow` touches: the
`_rb_protected` marker and the number of wrapper layers installed over
`win.Function`. -/
structure WinState where
  rbProtected : Bool
  wrapDepth : Nat
deriving DecidableEq, Repr

/-- `protectWindow` (blocker.js lines 746-806): an already-marked
window is returned untouched; otherwise the marker is set and one
wrapper layer is installed over the capabilities of the window. -/
def protectWindow (w : WinState) : WinState :=
  if w.rbProtected then w else ⟨true, w.wrapDepth + 1⟩

/-- One call through the `win.Function` wrapper installed by
`protectWindow` (blocker.js lines 755-762): a body containing the
trigger token is answered with a no-op function, with no
`blockedCount` increment and no report; any other body delegates. -/
def iframeFuncOutcome (body : String) : Bool × Nat :=
  if containsL debuggerChars body.data || decide (body = "debugger") then (true, 0) else (false, 0)

/-! ## Guarded-capability invocations and `blockedCount` (claim C4)

One invocation of any main-context guarded capability, with the
arguments each wrapper inspects. -/

/-- The events the main-context wrappers can receive. -/
inductive GuardEvent where
  | navAssign (armed : Bool) (loc url : String)
  | navReplace (armed : Bool) (loc url : String)
  | histPushState (armed : Bool) (loc : String) (url : Option String)
  | histReplaceState (armed : Bool) (loc : String) (url : Option String)
  | reloadCall (armed : Bool)
  | histGo (armed : Bool) (delta : Option Int)
  | bcConstruct (channel : String)
  | funcCtor (body : String)
  | evalCall (code : String)
  | setTimeoutStr (code : String)
  | setIntervalStr (code : String)
  | addListener (etype : String)
  | setItemCall (key value : String)

/-- The arbiter outcome as a (blocked, increment) pair. -/
def navPair (armed : Bool) (loc url : String) : Bool × Nat :=
  ((shouldBlockNavigation armed loc url).blocked, (shouldBlockNavigation armed loc url).delta)

/-- `history.pushState` / `replaceState` (blocker.js lines 652-664):
only a truthy `url` argument is arbitrated. -/
def histStatePair (armed : Bool) (loc : String) (url : Option String) : Bool × Nat :=
  match url with
  | none => (false, 0)
  | some u => if u = "" then (false, 0) else navPair armed loc u

/-- `history.go` (blocker.js lines 667-680): a reload-equivalent delta
(`0`, `undefined` or `null`) is blocked and counted while idle; any
other delta is delegated. -/
def histGoPair (armed : Bool) (d : Option Int) : Bool × Nat :=
  match d with
  | none => if armed then (false, 0) else (true, 1)
  | some dv => if dv = 0 then (if armed then (false, 0) else (true, 1)) else (false, 0)

/-- Whether one invocation is blocked and by how much `blockedCount`
grows, each case mirrored from its wrapper in the source. -/
def eventOutcome : GuardEvent → Bool × Nat
  | .navAssign armed loc url => navPair armed loc url
  | .navReplace armed loc url => navPair armed loc url
  | .histPushState armed loc url => histStatePair armed loc url
  | .histReplaceState armed loc url => histStatePair armed loc url
  | .reloadCall armed => ((reloadOutcome armed).blocked, (reloadOutcome armed).delta)
  | .histGo armed d => histGoPair armed d
  | .bcConstruct _ => (true, 1)
  | .funcCtor body => if containsL debuggerChars body.data then (true, 1) else (false, 0)
  | .evalCall code => if containsL debuggerChars code.data then (true, 1) else (false, 0)
  | .setTimeoutStr code => if containsL debuggerChars code.data then (true, 1) else (false, 0)
  | .setIntervalStr code => if containsL debuggerChars code.data then (true, 1) else (false, 0)
  | .addListener etype => if etype = "storage" then (true, 1) else (false, 0)
  | .setItemCall key _ => if isSuspiciousKey key then (true, 1) else (false, 0)

/-- `blockedCount` after one invocation. -/
def stepBlockedCount (c : Nat) (e : GuardEvent) : Nat := c + (eventOutcome e).2

/-- `blockedCount` after a sequence of invocations. -/
def runBlockedCount : Nat → List GuardEvent → Nat
  | c, [] => c
  | c, e :: es => runBlockedCount (stepBlockedCount c e) es

/-! ## Generic facts about the replace scanner -/

/-- A global replace pass leaves a text unchanged when its matcher
matches nowhere in it. -/
theorem scanRep_of_no_match (m : RuleMatch) :
    ∀ (s : Str) (prev : Option Char) (fuel : Nat),
      matchesSomewhere m prev s = false → scanRep m fuel prev s = s := by
  intro s
  induction s with
  | nil => intro prev fuel _; cases fuel <;> rfl
  | cons c rest ih =>
    intro prev fuel h
    cases fuel with
    | zero => rfl
    | succ n =>
      simp only [matchesSomewhere, Bool.or_eq_false_iff] at h
      obtain ⟨ha, hb⟩ := h
      have hm : m prev (c :: rest) = none := by
        cases hmm : m prev (c :: rest) with
        | none => rfl
        | some v => rw [hmm] at ha; simp at ha
      simp only [scanRep, hm]
      rw [ih (some c) n hb]

/-- `runRule` form of the previous fact. -/
theorem runRule_of_no_match (m : RuleMatch) (s : Str)
    (h : matchesSomewhere m none s = false) : runRule m s = s :=
  scanRep_of_no_match m s none s.length h

/-- A text in which none of the eight rules matches is a fixed point of
the sanitizer. -/
theorem sanitize_fixed (s : Str) (h : hasForbidden s = false) : sanitizeCode s = s := by
  simp only [hasForbidden, Bool.or_eq_false_iff] at h
  obtain ⟨⟨⟨⟨⟨⟨⟨h1, h2⟩, h3⟩, h4⟩, h5⟩, h6⟩, h7⟩, h8⟩ := h
  unfold sanitizeCode
  rw [runRule_of_no_match _ _ h1, runRule_of_no_match _ _ h2, runRule_of_no_match _ _ h3,
    runRule_of_no_match _ _ h4, runRule_of_no_match _ _ h5, runRule_of_no_match _ _ h6,
    runRule_of_no_match _ _ h7, runRule_of_no_match _ _ h8]

/-! ## Claim C1 -/

/-- C1 counterexample: the sanitizer is not idempotent.  For the text
`debugger;` the first pass yields the comment `/* debugger removed */`,
whose inner token the bare-trigger rule matches again, so a second pass
changes the text once more. -/
theorem sanitize_not_idempotent_cex :
    sanitizeCode (sanitizeCode (litOf "debugger;")) ≠ sanitizeCode (litOf "debugger;") := by
  decide

/-- C1 (amended): the sanitizer is idempotent exactly on those inputs
whose first-pass output contains no forbidden pattern; in general a
second pass can change the text again, because the bare-trigger
replacement `/* debugger removed */` reinserts the trigger token. -/
theorem sanitize_idempotent_on_stable (s : Str)
    (h : hasForbidden (sanitizeCode s) = false) :
    sanitizeCode (sanitizeCode s) = sanitizeCode s :=
  sanitize_fixed _ h

/-- Witness for `sanitize_idempotent_on_stable` at the text `eval(1)`. -/
theorem sanitize_idempotent_on_stable_witness :
    hasForbidden (sanitizeCode (litOf "eval(1)")) = false ∧
      sanitizeCode (sanitizeCode (litOf "eval(1)")) = sanitizeCode (litOf "eval(1)") :=
  ⟨by decide, sanitize_idempotent_on_stable (litOf "eval(1)") (by decide)⟩

/-! ## Claim C7 -/

/-- C7: the sanitizer is non-destructive: a source text in which none
of the eight forbidden trigger patterns occurs is returned unchanged. -/
theorem sanitize_non_destructive (s : Str) (h : hasForbidden s = false) :
    sanitizeCode s = s :=
  sanitize_fixed s h

/-- Witness for `sanitize_non_destructive` on a benign statement. -/
theorem sanitize_non_destructive_witness :
    hasForbidden (litOf "const tabs = window.open;") = false ∧
      sanitizeCode (litOf "const tabs = window.open;") = litOf "const tabs = window.open;" :=
  ⟨by decide, sanitize_non_destructive _ (by decide)⟩

/-! ## Claim C2 -/

/-- C2: while Armed every arbitrated navigation request is allowed, and
an armed reload delegates; while Idle a same-origin request from a deep
page to a suspicious path is blocked with one count, a same-origin
request to a non-suspicious path is allowed, and a cross-origin request
is blocked with one count. -/
theorem navigation_decision_table :
    (∀ loc url, (shouldBlockNavigation true loc url).blocked = false)
    ∧ (∀ loc url cur tgt, parseAbsURL loc = some cur → resolveURL cur url = some tgt →
        tgt.origin = cur.origin → isFromDeepPage cur = true → isToSuspiciousPath tgt = true →
        shouldBlockNavigation false loc url = ⟨true, 1, false⟩)
    ∧ (∀ loc url cur tgt, parseAbsURL loc = some cur → resolveURL cur url = some tgt →
        tgt.origin = cur.origin → isToSuspiciousPath tgt = false →
        shouldBlockNavigation false loc url = ⟨false, 0, false⟩)
    ∧ (∀ loc url cur tgt, parseAbsURL loc = some cur → resolveURL cur url = some tgt →
        tgt.origin ≠ cur.origin →
        shouldBlockNavigation false loc url = ⟨true, 1, false⟩)
    ∧ reloadOutcome true = ⟨false, 0, false⟩ := by
  refine ⟨?_, ?_, ?_, ?_, rfl⟩
  · intro loc url
    cases hp : parseAbsURL loc with
    | none => simp [shouldBlockNavigation, hp]
    | some cur =>
      cases hr : resolveURL cur url with
      | none => simp [shouldBlockNavigation, hp, hr]
      | some tgt => simp [shouldBlockNavigation, hp, hr, navDecide]
  · intro loc url cur tgt hp hr ho hd hs
    simp only [shouldBlockNavigation, hp, hr]
    simp [navDecide, ho, hd, hs]
  · intro loc url cur tgt hp hr ho hs
    simp only [shouldBlockNavigation, hp, hr]
    simp [navDecide, ho, hs]
  · intro loc url cur tgt hp hr ho
    simp only [shouldBlockNavigation, hp, hr]
    have hb : decide (tgt.origin = cur.origin) = false := decide_eq_false ho
    simp [navDecide, hb]

/-- Witness for `navigation_decision_table` at the four concrete
requests of the specification decision table. -/
theorem navigation_decision_table_witness :
    shouldBlockNavigation false "https://example.com/account/settings" "https://example.com/login"
        = ⟨true, 1, false⟩
    ∧ shouldBlockNavigation false "https://example.com/account/settings"
        "https://example.com/account/profile" = ⟨false, 0, false⟩
    ∧ shouldBlockNavigation false "https://example.com/" "https://evil.example/"
        = ⟨true, 1, false⟩
    ∧ (shouldBlockNavigation true "https://example.com/account/settings"
        "https://example.com/login").blocked = false :=
  ⟨navigation_decision_table.2.1 _ _ ⟨"https", "example.com", "/account/settings"⟩
      ⟨"https", "example.com", "/login"⟩ (by decide) (by decide) (by decide) (by decide) (by decide),
   navigation_decision_table.2.2.1 _ _ ⟨"https", "example.com", "/account/settings"⟩
      ⟨"https", "example.com", "/account/profile"⟩ (by decide) (by decide) (by decide) (by decide),
   navigation_decision_table.2.2.2.1 _ _ ⟨"https", "example.com", "/"⟩
      ⟨"https", "evil.example", "/"⟩ (by decide) (by decide) (by decide),
   navigation_decision_table.1 _ _⟩

/-! ## Claim C8 -/

/-- C8: when either URL cannot be resolved, the arbiter catches the
failure, logs it, does not count a blocked event, and allows the
request. -/
theorem parse_failure_allows :
    (∀ armed loc url, parseAbsURL loc = none →
      shouldBlockNavigation armed loc url = ⟨false, 0, true⟩)
    ∧ (∀ armed loc url cur, parseAbsURL loc = some cur → resolveURL cur url = none →
      shouldBlockNavigation armed loc url = ⟨false, 0, true⟩) := by
  constructor
  · intro armed loc url h
    simp [shouldBlockNavigation, h]
  · intro armed loc url cur h1 h2
    simp [shouldBlockNavigation, h1, h2]

/-- Witness for `parse_failure_allows`: an unparseable context URL and
an unparseable navigation target. -/
theorem parse_failure_allows_witness :
    shouldBlockNavigation false "not a url" "/login" = ⟨false, 0, true⟩
    ∧ shouldBlockNavigation false "https://example.com/a" "http://" = ⟨false, 0, true⟩ :=
  ⟨parse_failure_allows.1 false "not a url" "/login" (by decide),
   parse_failure_allows.2 false "https://example.com/a" "http://"
      ⟨"https", "example.com", "/a"⟩ (by decide) (by decide)⟩

/-! ## Claim C10 -/

/-- C10: while Idle, a same-origin request whose source page is the
root path is always allowed, whatever the target path; the deep-source
condition is necessary for the same-origin block. -/
theorem root_source_allowed (loc url : String) (cur tgt : URLRec)
    (hp : parseAbsURL loc = some cur) (hr : resolveURL cur url = some tgt)
    (ho : tgt.origin = cur.origin) (hroot : cur.pathname = "/") :
    shouldBlockNavigation false loc url = ⟨false, 0, false⟩ := by
  simp only [shouldBlockNavigation, hp, hr]
  have hdeep : isFromDeepPage cur = false := by simp [isFromDeepPage, hroot]
  simp [navDecide, ho, hdeep]

/-- Witness for `root_source_allowed`: from the root page even the
suspicious target `/login` is allowed. -/
theorem root_source_allowed_witness :
    isToSuspiciousPath ⟨"https", "example.com", "/login"⟩ = true ∧
      shouldBlockNavigation false "https://example.com/" "/login" = ⟨false, 0, false⟩ :=
  ⟨by decide,
   root_source_allowed _ _ ⟨"https", "example.com", "/"⟩ ⟨"https", "example.com", "/login"⟩
      (by decide) (by decide) (by decide) rfl⟩

/-! ## Claim C6 -/

/-- C6: suspicious-key matching is case- and separator-insensitive
substring matching: `tab_Active`, `TABCOUNT` and `open-tabs` are
discarded without writing, while `tabTitle` is delegated to the
original `setItem` unchanged. -/
theorem suspicious_key_matching :
    (∀ store v, setItemStep store "tab_Active" v = (store, 1))
    ∧ (∀ store v, setItemStep store "TABCOUNT" v = (store, 1))
    ∧ (∀ store v, setItemStep store "open-tabs" v = (store, 1))
    ∧ (∀ store v, setItemStep store "tabTitle" v = (storeWrite store "tabTitle" v, 0)) := by
  have h1 : isSuspiciousKey "tab_Active" = true := by decide
  have h2 : isSuspiciousKey "TABCOUNT" = true := by decide
  have h3 : isSuspiciousKey "open-tabs" = true := by decide
  have h4 : isSuspiciousKey "tabTitle" = false := by decide
  refine ⟨fun store v => ?_, fun store v => ?_, fun store v => ?_, fun store v => ?_⟩ <;>
    simp [setItemStep, h1, h2, h3, h4]

/-! ## Claim C9 -/

/-- C9: the wrapped `window.addEventListener` drops every `storage`
registration (counting one blocked event each time) and delegates every
other event type with the arguments unchanged. -/
theorem storage_listener_dropped :
    (∀ regs l o, addListenerStep regs "storage" l o = (regs, 1))
    ∧ (∀ regs etype l o, etype ≠ "storage" →
        addListenerStep regs etype l o = (regs ++ [(etype, l, o)], 0)) := by
  constructor
  · intro regs l o
    simp [addListenerStep]
  · intro regs etype l o h
    simp [addListenerStep, h]

/-- Witness for `storage_listener_dropped` with a `click` listener. -/
theorem storage_listener_dropped_witness :
    addListenerStep [] "click" 3 7 = ([("click", 3, 7)], 0) :=
  storage_listener_dropped.2 [] "click" 3 7 (by decide)

/-! ## Claim C4 -/

/-- In the arbiter decision body, the counter increment is one exactly
on the blocking branches. -/
theorem nav_delta_eq (armed : Bool) (cur tgt : URLRec) :
    (navDecide armed cur tgt).delta = if (navDecide armed cur tgt).blocked then 1 else 0 := by
  unfold navDecide
  split
  · rfl
  · split
    · rfl
    · split <;> rfl

/-- The same for the whole arbiter, parse failures included. -/
theorem shouldBlock_delta_eq (armed : Bool) (loc url : String) :
    (shouldBlockNavigation armed loc url).delta =
      if (shouldBlockNavigation armed loc url).blocked then 1 else 0 := by
  cases hp : parseAbsURL loc with
  | none => simp [shouldBlockNavigation, hp]
  | some cur =>
    cases hr : resolveURL cur url with
    | none => simp [shouldBlockNavigation, hp, hr]
    | some tgt =>
      simp only [shouldBlockNavigation, hp, hr]
      exact nav_delta_eq armed cur tgt

/-- Each guarded-capability invocation grows `blockedCount` by one
exactly when it is blocked and by zero when it is allowed through. -/
theorem event_delta_eq (e : GuardEvent) :
    (eventOutcome e).2 = if (eventOutcome e).1 then 1 else 0 := by
  cases e with
  | navAssign armed loc url =>
    simpa [eventOutcome, navPair] using shouldBlock_delta_eq armed loc url
  | navReplace armed loc url =>
    simpa [eventOutcome, navPair] using shouldBlock_delta_eq armed loc url
  | histPushState armed loc url =>
    cases url with
    | none => rfl
    | some u =>
      simp only [eventOutcome, histStatePair]
      split
      · rfl
      · simpa [navPair] using shouldBlock_delta_eq armed loc u
  | histReplaceState armed loc url =>
    cases url with
    | none => rfl
    | some u =>
      simp only [eventOutcome, histStatePair]
      split
      · rfl
      · simpa [navPair] using shouldBlock_delta_eq armed loc u
  | reloadCall armed => cases armed <;> rfl
  | histGo armed d =>
    cases d with
    | none => cases armed <;> rfl
    | some dv =>
      simp only [eventOutcome, histGoPair]
      split
      · cases armed <;> rfl
      · rfl
  | bcConstruct n => rfl
  | funcCtor body =>
    simp only [eventOutcome]
    split <;> rfl
  | evalCall code =>
    simp only [eventOutcome]
    split <;> rfl
  | setTimeoutStr code =>
    simp only [eventOutcome]
    split <;> rfl
  | setIntervalStr code =>
    simp only [eventOutcome]
    split <;> rfl
  | addListener etype =>
    simp only [eventOutcome]
    split <;> rfl
  | setItemCall key value =>
    simp only [eventOutcome]
    split <;> rfl

/-- C4: over every sequence of guarded-capability invocations
`blockedCount` never decreases, and each single invocation adds exactly
one when it is blocked and exactly zero when it is allowed through to
the original capability. -/
theorem blockedCount_monotone_exact :
    (∀ c es, c ≤ runBlockedCount c es)
    ∧ (∀ c e, stepBlockedCount c e = c + (if (eventOutcome e).1 then 1 else 0)) := by
  constructor
  · intro c es
    induction es generalizing c with
    | nil => exact Nat.le_refl c
    | cons e es ih =>
      calc c ≤ stepBlockedCount c e := Nat.le_add_right c _
      _ ≤ runBlockedCount (stepBlockedCount c e) es := ih _
      _ = runBlockedCount c (e :: es) := rfl
  · intro c e
    rw [stepBlockedCount, event_delta_eq e]

/-! ## Claim C5 -/

/-- C5: the `_rb_protected` marker makes `protectWindow` idempotent, so
a doubly instrumented context carries exactly one wrapper chain; but a
single adversarial call through the nested-context `win.Function`
wrapper, while blocked, increments `blockedCount` by zero, not one: the
wrapper installed by `protectWindow` has no counter increment and no
report call. -/
theorem protectWindow_marker_and_count :
    (∀ w, protectWindow (protectWindow w) = protectWindow w)
    ∧ protectWindow ⟨false, 0⟩ = ⟨true, 1⟩
    ∧ iframeFuncOutcome "debugger" = (true, 0) := by
  refine ⟨fun w => ?_, by decide, by decide⟩
  rcases w with ⟨p, d⟩
  cases p <;> simp [protectWindow]

/-! ## Claim C3 -/

/-- C3 counterexample: the `BroadcastChannel` replacement masquerades
in no respect — it keeps neither the prototype link nor the native
`toString` rendering of the original constructor. -/
theorem wrapper_masquerade_cex :
    ¬ masquerades BlockedBroadcastChannel OriginalBroadcastChannel := fun h =>
  absurd h.1 (by decide)

/-- C3 (amended): no capability wrapper masquerades fully.  The
`window.Function` wrapper preserves the prototype link but neither
`toString` nor `name`; the `Function.prototype.constructor` getter
wrapper preserves the prototype link and patches its `toString`, but
the patch renders the anonymous `window.Function` wrapper captured at
line 417 (via line 359), not the native source, and every read returns
a fresh, non-identical wrapper object, so identity comparison also
distinguishes it; the `BroadcastChannel` replacement preserves none of
prototype, `toString` or `name`. -/
theorem wrapper_masquerade_amended :
    windowFunctionWrapper.protoId = nativeFunction.protoId
    ∧ windowFunctionWrapper.toStringVal ≠ nativeFunction.toStringVal
    ∧ windowFunctionWrapper.name ≠ nativeFunction.name
    ∧ (∀ n, (constructorGetterRead n).protoId = nativeFunction.protoId
        ∧ (constructorGetterRead n).toStringVal = windowFunctionWrapper.toStringVal
        ∧ (constructorGetterRead n).toStringVal ≠ nativeFunction.toStringVal)
    ∧ (BlockedBroadcastChannel.protoId ≠ OriginalBroadcastChannel.protoId
        ∧ BlockedBroadcastChannel.toStringVal ≠ OriginalBroadcastChannel.toStringVal
        ∧ BlockedBroadcastChannel.name ≠ OriginalBroadcastChannel.name)
    ∧ (∀ n m, n ≠ m → (constructorGetterRead n).objId ≠ (constructorGetterRead m).objId) := by
  refine ⟨by decide, by decide, by decide, fun n => ⟨rfl, rfl, fun hc => SrcRepr.noConfusion hc⟩,
    ⟨by decide, by decide, by decide⟩, ?_⟩
  intro n m h hc
  exact h (Nat.add_left_cancel hc)

/-- Witness for `wrapper_masquerade_amended`: two distinct reads of the
patched constructor getter yield distinct wrapper objects. -/
theorem wrapper_masquerade_amended_witness :
    (0 : Nat) ≠ 1 ∧ (constructorGetterRead 0).objId ≠ (constructorGetterRead 1).objId :=
  ⟨by decide, wrapper_masquerade_amended.2.2.2.2.2 0 1 (by decide)⟩
